import Mathlib

/-!
Shallow embedding of `src/server.js` (satisfaction-survey): the feedback
store (`POST /api/feedback`) and the monthly aggregation engine
(`GET /api/stats`).

Modelling conventions:
* The SQLite `feedback` table is a `List FeedbackRecord` (insertion order);
  the `UNIQUE(client_name, project)` constraint is checked against the list
  before appending, exactly as SQLite raises a UNIQUE error on INSERT.
* JSON request bodies are `Body`: a text field carries `Option String`
  (`none` covers both an absent key and JSON `null`, which the handler
  treats identically via `=== undefined || === null`); a rating carries
  `Option Int` (`none` for absent/null).
* Timestamps are integers (milliseconds since the Unix epoch, UTC), the
  value `Date.prototype.getTime` / `Date.UTC` works with.  The SQL
  comparisons `created_at >= start AND created_at < end` compare ISO-8601
  strings, which for years 0..9999 order exactly like the underlying
  millisecond values, so the model compares the integers directly.
* SQL `AVG` and the `/4.0` float division are modelled over `ℚ` (exact
  arithmetic in place of IEEE doubles).
* `Date.UTC(y, m, 1)` is modelled by `dateUTC`: truncation toward zero of
  each argument (`ToIntegerOrInfinity`, NaN and infinities give NaN), the
  two-digit-year rule (0..99 ↦ 1900+y), month normalisation by calendar
  rollover (`y + ⌊m/12⌋`, `m mod 12` as in `MakeDay`), day arithmetic by
  the standard days-from-civil formula for the proleptic Gregorian
  calendar, and `TimeClip` (time values beyond ±8.64e15 ms are NaN).
* `String.prototype.trim`, `String.prototype.split("-")` and `Number(...)`
  are modelled on `List Char` by structural recursion (`jsTrim`,
  `splitOnDash`, `jsNumberChars`). `Number` follows the
  string-numeric-literal grammar: empty ↦ 0, hex/octal/binary integer
  literals, signed decimals with fraction and exponent, `Infinity`; the
  result is NaN, an infinity, or an exact scaled integer `n / 10^k` in
  place of the nearest IEEE double (the two differ only within one ulp of
  the double at an integer boundary, and above the double range, where
  `TimeClip` yields NaN either way; the sign of an infinity is dropped
  because `Date.UTC` maps both infinities to NaN). A NaN time value makes
  `monthRange` return `none`, the way `new Date(NaN).toISOString()` throws
  a `RangeError` (an uncaught exception, surfaced by Express as HTTP 500).
-/

/-! ### JS string primitives -/

/-- JS `String.prototype.trim`: drop leading and trailing whitespace. -/
def trimChars (l : List Char) : List Char :=
  ((l.dropWhile Char.isWhitespace).reverse.dropWhile Char.isWhitespace).reverse

/-- JS `s.trim()` on a `String`. -/
def jsTrim (s : String) : String :=
  ⟨trimChars s.data⟩

/-- JS `s.split("-")`: split at every dash, keeping empty pieces. -/
def splitOnDash : List Char → List (List Char)
  | [] => [[]]
  | '-' :: rest => [] :: splitOnDash rest
  | c :: rest =>
    match splitOnDash rest with
    | [] => [[c]]
    | p :: ps => (c :: p) :: ps

/-- Value of a decimal digit string (most significant digit first). -/
def digitsVal (l : List Char) : Nat :=
  l.foldl (fun a c => a * 10 + (c.toNat - 48)) 0

/-- Hexadecimal digit test (0-9, a-f, A-F). -/
def isHexDigitCh (c : Char) : Bool :=
  (48 ≤ c.toNat && c.toNat ≤ 57) || (65 ≤ c.toNat && c.toNat ≤ 70) ||
    (97 ≤ c.toNat && c.toNat ≤ 102)

/-- Value of one hexadecimal digit. -/
def hexDigitVal (c : Char) : Nat :=
  if c.toNat ≤ 57 then c.toNat - 48
  else if c.toNat ≤ 70 then c.toNat - 55
  else c.toNat - 87

/-- Value of a hexadecimal digit string. -/
def hexVal (l : List Char) : Nat :=
  l.foldl (fun a c => a * 16 + hexDigitVal c) 0

/-- Value of an octal digit string. -/
def octVal (l : List Char) : Nat :=
  l.foldl (fun a c => a * 8 + (c.toNat - 48)) 0

/-- Value of a binary digit string. -/
def binVal (l : List Char) : Nat :=
  l.foldl (fun a c => a * 2 + (c.toNat - 48)) 0

/-- Result of JS `Number(s)` as far as `Date.UTC` can observe it: `NaN`, an
infinity (the sign does not matter, both make `MakeDay` return NaN), or a
finite value `n / 10^k` kept as an exact scaled integer. -/
inductive JsNum where
  | nan
  | inf
  | val (n : Int) (k : Nat)
deriving DecidableEq, Repr

/-- Exponent part of a decimal literal: optional sign, then digits. -/
def parseExp : List Char → Option Int
  | '+' :: ds =>
    if !ds.isEmpty && ds.all Char.isDigit then some ((digitsVal ds : Int)) else none
  | '-' :: ds =>
    if !ds.isEmpty && ds.all Char.isDigit then some (-(digitsVal ds : Int)) else none
  | ds =>
    if !ds.isEmpty && ds.all Char.isDigit then some ((digitsVal ds : Int)) else none

/-- Assemble `±(mant / 10^fplen) * 10^ex` as an exact scaled integer. -/
def decValue (neg : Bool) (mant : Nat) (fplen : Nat) (ex : Int) : JsNum :=
  let sn : Int := if neg then -(mant : Int) else (mant : Int)
  let e : Int := ex - (fplen : Int)
  if 0 ≤ e then .val (sn * (10 : Int) ^ e.toNat) 0
  else .val sn (-e).toNat

/-- Signed decimal literal of the JS number grammar:
`Infinity`, or `digits [. digits] [e|E [sign] digits]` with at least one
digit in the integer or fraction part. -/
def parseDec (neg : Bool) (cs : List Char) : JsNum :=
  if cs = "Infinity".data then .inf
  else
    let (ip, rest1) := cs.span Char.isDigit
    let (fp, rest2) : List Char × List Char :=
      match rest1 with
      | '.' :: r => r.span Char.isDigit
      | _ => ([], rest1)
    if ip.isEmpty && fp.isEmpty then .nan
    else
      match rest2 with
      | [] => decValue neg (digitsVal (ip ++ fp)) fp.length 0
      | 'e' :: r =>
        match parseExp r with
        | some ex => decValue neg (digitsVal (ip ++ fp)) fp.length ex
        | none => .nan
      | 'E' :: r =>
        match parseExp r with
        | some ex => decValue neg (digitsVal (ip ++ fp)) fp.length ex
        | none => .nan
      | _ => .nan

/-- JS `Number(s)` on the string-numeric-literal grammar:
whitespace-trimmed; empty is `0`; unsigned hex / octal / binary integer
literals; otherwise an optionally signed decimal literal (with fraction,
exponent, `Infinity`). Everything else is `NaN`. The finite value is kept
as an exact scaled integer rather than the nearest IEEE double: the two
readings can differ only by one unit in the truncated integer (within one
ulp of the double), and above the double range, where the `Date` range
clip below yields NaN for both. -/
def jsNumberChars (l : List Char) : JsNum :=
  let t := trimChars l
  if t.isEmpty then .val 0 0
  else
    match t with
    | '0' :: 'x' :: ds =>
      if !ds.isEmpty && ds.all isHexDigitCh then .val (hexVal ds) 0 else .nan
    | '0' :: 'X' :: ds =>
      if !ds.isEmpty && ds.all isHexDigitCh then .val (hexVal ds) 0 else .nan
    | '0' :: 'o' :: ds =>
      if !ds.isEmpty && ds.all (fun c => 48 ≤ c.toNat && c.toNat ≤ 55)
      then .val (octVal ds) 0 else .nan
    | '0' :: 'O' :: ds =>
      if !ds.isEmpty && ds.all (fun c => 48 ≤ c.toNat && c.toNat ≤ 55)
      then .val (octVal ds) 0 else .nan
    | '0' :: 'b' :: ds =>
      if !ds.isEmpty && ds.all (fun c => 48 ≤ c.toNat && c.toNat ≤ 49)
      then .val (binVal ds) 0 else .nan
    | '0' :: 'B' :: ds =>
      if !ds.isEmpty && ds.all (fun c => 48 ≤ c.toNat && c.toNat ≤ 49)
      then .val (binVal ds) 0 else .nan
    | '-' :: rest => parseDec true rest
    | '+' :: rest => parseDec false rest
    | rest => parseDec false rest

/-! ### `Date.UTC` -/

/-- Days between the civil date `y-m-d` (proleptic Gregorian, `m` in 1..12)
and the Unix epoch 1970-01-01. -/
def daysFromCivil (y m d : Int) : Int :=
  let y2 := if m ≤ 2 then y - 1 else y
  let era := Int.fdiv y2 400
  let yoe := y2 - era * 400
  let mp := Int.emod (m + 9) 12
  let doy := Int.fdiv (153 * mp + 2) 5 + d - 1
  let doe := yoe * 365 + Int.fdiv yoe 4 - Int.fdiv yoe 100 + doy
  era * 146097 + doe - 719468

/-- The ECMAScript two-digit-year rule of `Date.UTC`: 0..99 mean 1900+y. -/
def jsYear (y : Int) : Int :=
  if 0 ≤ y ∧ y ≤ 99 then 1900 + y else y

/-- Start of calendar month `m` (1..12) of year `y`, in UTC milliseconds. -/
def monthStart (y m : Int) : Int :=
  daysFromCivil y m 1 * 86400000

/-- Time value of `Date.UTC(y, mIdx, 1, 0, 0, 0)` before the range clip,
for the already-truncated integer year and 0-based month index: two-digit
years mapped, the month normalised by calendar rollover (`MakeDay`). -/
def utcMillis (yi mi : Int) : Int :=
  let ny := jsYear yi + Int.fdiv mi 12
  let nm := Int.emod mi 12 + 1
  daysFromCivil ny nm 1 * 86400000

/-- ECMAScript `TimeClip`: time values beyond ±8.64e15 ms are NaN. -/
def timeClip (t : Int) : Option Int :=
  if -8640000000000000 ≤ t ∧ t ≤ 8640000000000000 then some t else none

/-- `ToIntegerOrInfinity` as `MakeDay` uses it: NaN and the infinities give
NaN, a finite value truncates toward zero. -/
def jsTrunc : JsNum → Option Int
  | .nan => none
  | .inf => none
  | .val n k => some (Int.tdiv n ((10 : Int) ^ k))

/-- JS subtraction of 1 on a `Number` (for the `m - 1` month index). -/
def jsSub1 : JsNum → JsNum
  | .nan => .nan
  | .inf => .inf
  | .val n k => .val (n - (10 : Int) ^ k) k

/-- JS `Date.UTC(y, m, 1)` in milliseconds: NaN (`none`) for non-finite
arguments and for results outside the representable `Date` range. -/
def dateUTC (y m : JsNum) : Option Int :=
  match jsTrunc y, jsTrunc m with
  | some yi, some mi => timeClip (utcMillis yi mi)
  | _, _ => none

/-- Source `monthRange(yyyyMm)`: split on `-`, `Number` the first two pieces
(a missing second piece is `Number(undefined) = NaN`), and build the
half-open interval `[Date.UTC(y, m-1, 1), Date.UTC(y, m, 1))`.
`none` is the thrown `RangeError` of `toISOString` on an invalid date. -/
def monthRange (s : String) : Option (Int × Int) :=
  let parts := (splitOnDash s.data).map jsNumberChars
  match dateUTC (parts.getD 0 .nan) (jsSub1 (parts.getD 1 .nan)),
      dateUTC (parts.getD 0 .nan) (parts.getD 1 .nan) with
  | some a, some b => some (a, b)
  | _, _ => none

/-! ### Data model -/

/-- One row of the `feedback` table (`id` and the textual `created_at`
representation elided; `created_at` is the UTC millisecond timestamp). -/
structure FeedbackRecord where
  created_at : Int
  email : String
  client_name : String
  project : String
  reactivity : Int
  reactivity_suggestion : Option String
  deadlines : Int
  deadlines_suggestion : Option String
  deliverables : Int
  deliverables_suggestion : Option String
  professionalism : Int
  professionalism_suggestion : Option String
  global_comment : Option String
deriving DecidableEq, Repr

/-- A parsed JSON body for `POST /api/feedback`. -/
structure Body where
  email : Option String
  client_name : Option String
  project : Option String
  reactivity : Option Int
  deadlines : Option Int
  deliverables : Option Int
  professionalism : Option Int
  reactivity_suggestion : Option String
  deadlines_suggestion : Option String
  deliverables_suggestion : Option String
  professionalism_suggestion : Option String
  global_comment : Option String
deriving DecidableEq, Repr

/-! ### `POST /api/feedback` -/

/-- Outcome of the POST handler: `ok` is HTTP 200, `validationError f` is
the 400 `Missing field: f` response, `duplicateError` is the 409 response
on a `UNIQUE` constraint violation. -/
inductive SubmitResult where
  | ok
  | validationError (field : String)
  | duplicateError
deriving DecidableEq, Repr

/-- The check `body[k] === undefined || body[k] === null || body[k] === ""`
for a text field: `none` covers undefined and null. -/
def strMissing : Option String → Bool
  | none => true
  | some s => s == ""

/-- The same check for a rating: a number is never `null` or `""`. -/
def numMissing : Option Int → Bool
  | none => true
  | some _ => false

/-- Coercion `value || null` for an optional text field: a falsy string (only `""`)
becomes SQL `NULL`. -/
def coerceOpt : Option String → Option String
  | none => none
  | some s => if s = "" then none else some s

/-- The row the INSERT statement binds: required text fields trimmed,
ratings through `Number(...)`, optional fields through `|| null`. -/
def mkRecord (now : Int) (b : Body) : FeedbackRecord :=
  { created_at := now
    email := jsTrim (b.email.getD "")
    client_name := jsTrim (b.client_name.getD "")
    project := jsTrim (b.project.getD "")
    reactivity := b.reactivity.getD 0
    reactivity_suggestion := coerceOpt b.reactivity_suggestion
    deadlines := b.deadlines.getD 0
    deadlines_suggestion := coerceOpt b.deadlines_suggestion
    deliverables := b.deliverables.getD 0
    deliverables_suggestion := coerceOpt b.deliverables_suggestion
    professionalism := b.professionalism.getD 0
    professionalism_suggestion := coerceOpt b.professionalism_suggestion
    global_comment := coerceOpt b.global_comment }

/-- The `POST /api/feedback` handler: required-field loop in source order,
then INSERT, which SQLite rejects iff a stored row already has the same
`(client_name, project)` pair. Returns the response and the new table. -/
def submitFeedback (now : Int) (store : List FeedbackRecord) (b : Body) :
    SubmitResult × List FeedbackRecord :=
  if strMissing b.email then (.validationError "email", store)
  else if strMissing b.client_name then (.validationError "client_name", store)
  else if strMissing b.project then (.validationError "project", store)
  else if numMissing b.reactivity then (.validationError "reactivity", store)
  else if numMissing b.deadlines then (.validationError "deadlines", store)
  else if numMissing b.deliverables then (.validationError "deliverables", store)
  else if numMissing b.professionalism then (.validationError "professionalism", store)
  else
    let nr := mkRecord now b
    if store.any (fun r => r.client_name == nr.client_name && r.project == nr.project) then
      (.duplicateError, store)
    else
      (.ok, store ++ [nr])

/-! ### `GET /api/stats` -/

/-- One row of the aggregation query (per-project group). -/
structure ProjectStats where
  project : String
  responses : Nat
  avg_reactivity : ℚ
  avg_deadlines : ℚ
  avg_deliverables : ℚ
  avg_professionalism : ℚ
  avg_total : ℚ
deriving DecidableEq, Repr

/-- One entry of the `action_plan` array. -/
structure ActionEntry where
  project : String
  recommendations : List String
deriving DecidableEq, Repr

/-- Distinct projects in first-appearance order (`GROUP BY project`). -/
def firstOccAux (seen : List String) : List String → List String
  | [] => []
  | x :: xs => if x ∈ seen then firstOccAux seen xs else x :: firstOccAux (x :: seen) xs

def firstOccurrences (l : List String) : List String :=
  firstOccAux [] l

/-- The SELECT list of the aggregation query on one group `g`:
`COUNT(*)`, the four `AVG(dim)`, and
`AVG((reactivity+deadlines+deliverables+professionalism)/4.0)`. -/
def mkStats (p : String) (g : List FeedbackRecord) : ProjectStats :=
  let n : ℚ := g.length
  { project := p
    responses := g.length
    avg_reactivity := (g.map fun r => (r.reactivity : ℚ)).sum / n
    avg_deadlines := (g.map fun r => (r.deadlines : ℚ)).sum / n
    avg_deliverables := (g.map fun r => (r.deliverables : ℚ)).sum / n
    avg_professionalism := (g.map fun r => (r.professionalism : ℚ)).sum / n
    avg_total :=
      (g.map fun r =>
        ((r.reactivity : ℚ) + r.deadlines + r.deliverables + r.professionalism) / 4).sum / n }

/-- Comparison used by `ORDER BY avg_total ASC`. -/
def statsLE (a b : ProjectStats) : Prop :=
  a.avg_total ≤ b.avg_total

instance : DecidableRel statsLE :=
  fun a b => inferInstanceAs (Decidable (a.avg_total ≤ b.avg_total))

instance : IsTotal ProjectStats statsLE :=
  ⟨fun a b => le_total a.avg_total b.avg_total⟩

instance : IsTrans ProjectStats statsLE :=
  ⟨fun _ _ _ hab hbc => le_trans hab hbc⟩

/-- The aggregation query: filter rows to `[s, e)` by `created_at`, group
by project, aggregate, `ORDER BY avg_total ASC`. -/
def statsRows (store : List FeedbackRecord) (s e : Int) : List ProjectStats :=
  let inMonth := store.filter fun r => decide (s ≤ r.created_at ∧ r.created_at < e)
  let ps := firstOccurrences (inMonth.map fun r => r.project)
  List.insertionSort statsLE
    (ps.map fun p => mkStats p (inMonth.filter fun r => r.project == p))

def reactivityRec : String :=
  "Réactivité: définir SLA (ex: réponse < 24h), point hebdo, canal unique."

def deadlinesRec : String :=
  "Délais: jalons, buffer, suivi régulier, gestion risques."

def deliverablesRec : String :=
  "Livrables: checklist qualité, revue interne, templates."

def professionalismRec : String :=
  "Pro/Innovation: REX mensuel, formation, partage bonnes pratiques."

/-- The four threshold rules of the action-plan loop (threshold 4, strict
`<`), in push order. -/
def recommendations (r : ProjectStats) : List String :=
  (if r.avg_reactivity < 4 then [reactivityRec] else []) ++
  (if r.avg_deadlines < 4 then [deadlinesRec] else []) ++
  (if r.avg_deliverables < 4 then [deliverablesRec] else []) ++
  (if r.avg_professionalism < 4 then [professionalismRec] else [])

/-- Action-plan loop: push an entry for a row whenever its recommendation
list is non-empty (the JS truthiness test on `a.length`). -/
def actionPlan (rows : List ProjectStats) : List ActionEntry :=
  rows.filterMap fun r =>
    if (recommendations r).isEmpty then none else some ⟨r.project, recommendations r⟩

/-- The 200 body of `GET /api/stats`. -/
structure StatsOk where
  month : String
  start : Int
  stop : Int
  projects : List ProjectStats
  action_plan : List ActionEntry
deriving DecidableEq, Repr

/-- Outcome of the GET handler: `badRequest` is the 400 `month is required`
response; `serverError` is the uncaught `RangeError` thrown by
`toISOString` on an invalid date, surfaced by Express as HTTP 500. -/
inductive StatsResult where
  | badRequest
  | serverError
  | ok (body : StatsOk)
deriving DecidableEq, Repr

/-- The `GET /api/stats` handler: `!month` (absent or empty) is 400, then
`monthRange`, the aggregation query and the action-plan loop. -/
def statsHandler (store : List FeedbackRecord) (month : Option String) : StatsResult :=
  match month with
  | none => .badRequest
  | some m =>
    if m = "" then .badRequest
    else
      match monthRange m with
      | none => .serverError
      | some (s, e) =>
        let rows := statsRows store s e
        .ok ⟨m, s, e, rows, actionPlan rows⟩

/-! ### Derived predicates and fixtures -/

/-- Conjunction of the seven required-field checks of the POST handler. -/
def requiredOk (b : Body) : Bool :=
  !strMissing b.email &&
    (!strMissing b.client_name &&
      (!strMissing b.project &&
        (!numMissing b.reactivity &&
          (!numMissing b.deadlines &&
            (!numMissing b.deliverables && !numMissing b.professionalism)))))

/-- Some required field is absent, null, or exactly the empty string —
the condition the required-field loop actually tests (no trimming). -/
def requiredMissing (b : Body) : Prop :=
  b.email = none ∨ b.email = some "" ∨
  b.client_name = none ∨ b.client_name = some "" ∨
  b.project = none ∨ b.project = some "" ∨
  b.reactivity = none ∨ b.deadlines = none ∨
  b.deliverables = none ∨ b.professionalism = none

/-- The uniqueness invariant of the `feedback` table: no two stored rows
share the `(client_name, project)` pair. -/
def uniquePairs (store : List FeedbackRecord) : Prop :=
  store.Pairwise fun a c => ¬(a.client_name = c.client_name ∧ a.project = c.project)

/-- Contract between a submitted optional field and the stored column:
never the empty string; `NULL` exactly for absent/empty input; non-empty
input stored verbatim (no trimming). -/
def optOk (sub sto : Option String) : Prop :=
  sto ≠ some "" ∧
  ((sub = none ∨ sub = some "") ↔ sto = none) ∧
  (∀ s, sub = some s → s ≠ "" → sto = some s)

/-- Test used by the action plan: some dimension average is strictly below
the threshold 4. -/
def anyLowDim (r : ProjectStats) : Bool :=
  decide (r.avg_reactivity < 4 ∨ r.avg_deadlines < 4 ∨
    r.avg_deliverables < 4 ∨ r.avg_professionalism < 4)

/-- The example body of spec §8. -/
def exBody : Body :=
  { email := some "a@x.com"
    client_name := some "Acme"
    project := some "Website"
    reactivity := some 2
    deadlines := some 5
    deliverables := some 5
    professionalism := some 5
    reactivity_suggestion := none
    deadlines_suggestion := none
    deliverables_suggestion := none
    professionalism_suggestion := none
    global_comment := none }

/-- Midnight UTC, 2026-01-01. -/
def jan2026 : Int := utcMillis 2026 0

/-- Midnight UTC, 2026-02-01. -/
def feb2026 : Int := utcMillis 2026 1

/-- The row the example body inserts when stamped at `jan2026`. -/
def exRecord : FeedbackRecord := mkRecord jan2026 exBody

/-- The aggregation row the example produces for project `Website`. -/
def exRow : ProjectStats :=
  { project := "Website"
    responses := 1
    avg_reactivity := 2
    avg_deadlines := 5
    avg_deliverables := 5
    avg_professionalism := 5
    avg_total := 17 / 4 }

/-- The example body with a whitespace-only client name. -/
def wsBody : Body := { exBody with client_name := some "   " }

/-- A body carrying an empty-string suggestion and a non-empty comment,
to exercise the optional-field coercion. -/
def optBody : Body :=
  { exBody with reactivity_suggestion := some "", global_comment := some "ok " }

/-! ### Helper lemmas -/

theorem strMissing_iff (o : Option String) :
    strMissing o = true ↔ o = none ∨ o = some "" := by
  cases o with
  | none => simp [strMissing]
  | some s => simp [strMissing]

theorem numMissing_iff (o : Option Int) : numMissing o = true ↔ o = none := by
  cases o <;> simp [numMissing]

theorem strMissing_false (o : Option String) (h : ¬strMissing o = true) :
    o ≠ none ∧ o ≠ some "" := by
  rw [Bool.not_eq_true] at h
  constructor <;> rintro rfl <;> simp [strMissing] at h

theorem numMissing_false (o : Option Int) (h : ¬numMissing o = true) : o ≠ none := by
  rw [Bool.not_eq_true] at h
  rintro rfl
  simp [numMissing] at h

theorem coerceOpt_optOk (o : Option String) : optOk o (coerceOpt o) := by
  cases o with
  | none => simp [optOk, coerceOpt]
  | some s =>
    by_cases h : s = "" <;>
      simp [optOk, coerceOpt, h]

theorem submitFeedback_ok_store (now : Int) (store : List FeedbackRecord) (b : Body)
    (st2 : List FeedbackRecord) (h : submitFeedback now store b = (SubmitResult.ok, st2)) :
    st2 = store ++ [mkRecord now b] := by
  simp only [submitFeedback] at h
  split_ifs at h <;> simp_all

/-- C1: a second submission whose trimmed client name and project match a
stored row is rejected as a duplicate (HTTP 409) and leaves the store
unchanged; moreover every submission preserves uniqueness of the
`(client_name, project)` pair across the store, so at most one record per
pair ever exists. -/
theorem c1_unique_pair :
    (∀ now store b, requiredOk b = true →
      (∃ r ∈ store, r.client_name = jsTrim (b.client_name.getD "") ∧
        r.project = jsTrim (b.project.getD "")) →
      submitFeedback now store b = (SubmitResult.duplicateError, store)) ∧
    (∀ now store b, uniquePairs store → uniquePairs (submitFeedback now store b).2) := by
  constructor
  · intro now store b hok hdup
    obtain ⟨r, hr, hcn, hp⟩ := hdup
    simp only [requiredOk, Bool.and_eq_true, Bool.not_eq_true'] at hok
    obtain ⟨h1, h2, h3, h4, h5, h6, h7⟩ := hok
    have hany : (store.any fun r2 =>
        r2.client_name == (mkRecord now b).client_name &&
          r2.project == (mkRecord now b).project) = true := by
      rw [List.any_eq_true]
      refine ⟨r, hr, ?_⟩
      simp [mkRecord, hcn, hp]
    simp [submitFeedback, h1, h2, h3, h4, h5, h6, h7, hany]
  · intro now store b hu
    simp only [submitFeedback]
    split_ifs with h1 h2 h3 h4 h5 h6 h7 h8
    · exact hu
    · exact hu
    · exact hu
    · exact hu
    · exact hu
    · exact hu
    · exact hu
    · exact hu
    · simp only [uniquePairs, List.pairwise_append] at *
      refine ⟨hu, List.pairwise_singleton _ _, ?_⟩
      intro a ha c hc
      rw [List.mem_singleton] at hc
      subst hc
      simp only [List.any_eq_true, Bool.and_eq_true, beq_iff_eq, not_exists, not_and] at h8
      intro hcon
      exact h8 a ha hcon.1 hcon.2

/-- Witness for C1: resubmitting the example body against a store that
already holds its record is answered with the duplicate error and the
store is unchanged. -/
theorem c1_unique_pair_witness :
    submitFeedback 1 [mkRecord 0 exBody] exBody =
      (SubmitResult.duplicateError, [mkRecord 0 exBody]) :=
  c1_unique_pair.1 1 [mkRecord 0 exBody] exBody (by decide) (by decide)

/-- C3 counterexample: a request whose client name is whitespace-only —
empty after trimming — is not rejected: validation passes, a record is
created, and its stored client name is the empty string. -/
theorem c3_counterexample :
    (submitFeedback 0 [] wsBody).1 = SubmitResult.ok ∧
    (submitFeedback 0 [] wsBody).2 = [mkRecord 0 wsBody] ∧
    (mkRecord 0 wsBody).client_name = "" := by
  refine ⟨?_, ?_, ?_⟩ <;> decide

/-- C3 (amended): POST fails with a ValidationError iff some required
field is absent, null, or exactly the empty string — the check precedes
trimming, so whitespace-only text fields pass — and a validation failure
creates no record. -/
theorem c3_validation :
    ∀ now store b,
      ((∃ f, (submitFeedback now store b).1 = SubmitResult.validationError f) ↔
        requiredMissing b) ∧
      (requiredMissing b → (submitFeedback now store b).2 = store) := by
  intro now store b
  simp only [submitFeedback]
  split_ifs with h1 h2 h3 h4 h5 h6 h7 h8
  · refine ⟨iff_of_true ⟨"email", rfl⟩ ?_, fun _ => rfl⟩
    rcases (strMissing_iff _).mp h1 with h | h <;> simp [requiredMissing, h]
  · refine ⟨iff_of_true ⟨"client_name", rfl⟩ ?_, fun _ => rfl⟩
    rcases (strMissing_iff _).mp h2 with h | h <;> simp [requiredMissing, h]
  · refine ⟨iff_of_true ⟨"project", rfl⟩ ?_, fun _ => rfl⟩
    rcases (strMissing_iff _).mp h3 with h | h <;> simp [requiredMissing, h]
  · refine ⟨iff_of_true ⟨"reactivity", rfl⟩ ?_, fun _ => rfl⟩
    have h := (numMissing_iff _).mp h4
    simp [requiredMissing, h]
  · refine ⟨iff_of_true ⟨"deadlines", rfl⟩ ?_, fun _ => rfl⟩
    have h := (numMissing_iff _).mp h5
    simp [requiredMissing, h]
  · refine ⟨iff_of_true ⟨"deliverables", rfl⟩ ?_, fun _ => rfl⟩
    have h := (numMissing_iff _).mp h6
    simp [requiredMissing, h]
  · refine ⟨iff_of_true ⟨"professionalism", rfl⟩ ?_, fun _ => rfl⟩
    have h := (numMissing_iff _).mp h7
    simp [requiredMissing, h]
  all_goals
    obtain ⟨e1, e2⟩ := strMissing_false _ h1
    obtain ⟨k1, k2⟩ := strMissing_false _ h2
    obtain ⟨p1, p2⟩ := strMissing_false _ h3
    have r1 := numMissing_false _ h4
    have r2 := numMissing_false _ h5
    have r3 := numMissing_false _ h6
    have r4 := numMissing_false _ h7
    have hnrm : ¬requiredMissing b := by
      simp [requiredMissing, e1, e2, k1, k2, p1, p2, r1, r2, r3, r4]
    refine ⟨iff_of_false ?_ hnrm, fun hm => absurd hm hnrm⟩
    rintro ⟨f, hf⟩
    simp at hf

/-- Witness for C3 (amended): a body with a null project is rejected and
the store stays empty. -/
theorem c3_validation_witness :
    requiredMissing { exBody with project := none } ∧
    (submitFeedback 0 [] { exBody with project := none }).2 = [] :=
  ⟨by simp [requiredMissing, exBody],
    (c3_validation 0 [] { exBody with project := none }).2
      (by simp [requiredMissing, exBody])⟩

/-- C8: a successful submission appends exactly one record, and each of the
five optional fields is stored as NULL exactly when the submitted value
was absent or the empty string, is never stored as the empty string, and
keeps a non-empty value verbatim (no trimming). -/
theorem c8_optional_fields (now : Int) (store : List FeedbackRecord) (b : Body)
    (st2 : List FeedbackRecord)
    (h : submitFeedback now store b = (SubmitResult.ok, st2)) :
    st2 = store ++ [mkRecord now b] ∧
    optOk b.reactivity_suggestion (mkRecord now b).reactivity_suggestion ∧
    optOk b.deadlines_suggestion (mkRecord now b).deadlines_suggestion ∧
    optOk b.deliverables_suggestion (mkRecord now b).deliverables_suggestion ∧
    optOk b.professionalism_suggestion (mkRecord now b).professionalism_suggestion ∧
    optOk b.global_comment (mkRecord now b).global_comment :=
  ⟨submitFeedback_ok_store now store b st2 h, coerceOpt_optOk _, coerceOpt_optOk _,
    coerceOpt_optOk _, coerceOpt_optOk _, coerceOpt_optOk _⟩

/-- Witness for C8: an empty-string suggestion is stored as NULL and a
non-empty comment with trailing whitespace is stored untrimmed. -/
theorem c8_optional_fields_witness :
    [mkRecord 0 optBody] = [] ++ [mkRecord 0 optBody] ∧
    optOk optBody.reactivity_suggestion (mkRecord 0 optBody).reactivity_suggestion ∧
    optOk optBody.deadlines_suggestion (mkRecord 0 optBody).deadlines_suggestion ∧
    optOk optBody.deliverables_suggestion (mkRecord 0 optBody).deliverables_suggestion ∧
    optOk optBody.professionalism_suggestion (mkRecord 0 optBody).professionalism_suggestion ∧
    optOk optBody.global_comment (mkRecord 0 optBody).global_comment :=
  c8_optional_fields 0 [] optBody [mkRecord 0 optBody] (by decide)

theorem intDiv_one (a : Int) : Int.tdiv a 1 = a :=
  Int.tdiv_one a

theorem jsTrunc_int (n : Int) : jsTrunc (JsNum.val n 0) = some n := by
  simp [jsTrunc, intDiv_one]

/-- C10 counterexample: the month `400000-13` has an integer month outside
1..12, yet the request is rejected rather than answered 200: the time
value exceeds the representable `Date` range, `Date.UTC` yields NaN,
`toISOString` throws, and the program answers 500. -/
theorem c10_counterexample :
    statsHandler [] (some "400000-13") = StatsResult.serverError := by
  decide

/-- C10 (amended): for every month string whose first two components parse
as integers `y` and `m` with `m` outside 1..12, as long as both interval
endpoints fall inside the representable `Date` range, the request is not
rejected: it is answered 200 with the half-open interval
`[Date.UTC(y, m-1, 1), Date.UTC(y, m, 1))`, which `Date.UTC` normalises
by calendar rollover — in particular month 13 of year `y` denotes January
of the year after `jsYear y` (the two-digit-mapped year), and month 0
denotes December of the year before `jsYear y`. Outside the `Date` range
the request instead raises the `toISOString` exception (HTTP 500), as the
counterexample shows. -/
theorem c10_month_rollover :
    (∀ (store : List FeedbackRecord) (s : String) (y m : Int),
      s ≠ "" →
      ((splitOnDash s.data).map jsNumberChars).getD 0 .nan = .val y 0 →
      ((splitOnDash s.data).map jsNumberChars).getD 1 .nan = .val m 0 →
      ¬(1 ≤ m ∧ m ≤ 12) →
      -8640000000000000 ≤ utcMillis y (m - 1) →
      utcMillis y (m - 1) ≤ 8640000000000000 →
      -8640000000000000 ≤ utcMillis y m →
      utcMillis y m ≤ 8640000000000000 →
      statsHandler store (some s) =
        StatsResult.ok ⟨s, utcMillis y (m - 1), utcMillis y m,
          statsRows store (utcMillis y (m - 1)) (utcMillis y m),
          actionPlan (statsRows store (utcMillis y (m - 1)) (utcMillis y m))⟩) ∧
    (∀ y : Int,
      utcMillis y 12 = monthStart (jsYear y + 1) 1 ∧
      utcMillis y 13 = monthStart (jsYear y + 1) 2 ∧
      utcMillis y (-1) = monthStart (jsYear y - 1) 12 ∧
      utcMillis y 0 = monthStart (jsYear y) 1) := by
  constructor
  · intro store s y m hs h0 h1 hm hc1 hc2 hc3 hc4
    have e10 : ((10 : Int) ^ (0 : Nat)) = 1 := pow_zero 10
    have ht1 : dateUTC (JsNum.val y 0) (jsSub1 (JsNum.val m 0)) =
        some (utcMillis y (m - 1)) := by
      simp only [jsSub1, e10, dateUTC, jsTrunc_int]
      rw [timeClip, if_pos ⟨hc1, hc2⟩]
    have ht2 : dateUTC (JsNum.val y 0) (JsNum.val m 0) = some (utcMillis y m) := by
      simp only [dateUTC, jsTrunc_int]
      rw [timeClip, if_pos ⟨hc3, hc4⟩]
    have hmr : monthRange s = some (utcMillis y (m - 1), utcMillis y m) := by
      simp only [monthRange, h0, h1, ht1, ht2]
    simp [statsHandler, hs, hmr]
  · intro y
    have e1 : Int.fdiv 12 12 = 1 := by decide
    have e2 : Int.emod 12 12 = 0 := by decide
    have e3 : Int.fdiv 13 12 = 1 := by decide
    have e4 : Int.emod 13 12 = 1 := by decide
    have e5 : Int.fdiv (-1) 12 = -1 := by decide
    have e6 : Int.emod (-1) 12 = 11 := by decide
    have e7 : Int.fdiv 0 12 = 0 := by decide
    have e8 : Int.emod 0 12 = 0 := by decide
    refine ⟨?_, ?_, ?_, ?_⟩ <;>
      simp only [utcMillis, monthStart, e1, e2, e3, e4, e5, e6, e7, e8,
        sub_eq_add_neg] <;>
      norm_num

/-- Witness for C10 (amended): month `2026-13` is answered 200 with the
interval running from the start of January 2027 to the start of February
2027. -/
theorem c10_month_rollover_witness :
    statsHandler [] (some "2026-13") =
      StatsResult.ok ⟨"2026-13", utcMillis 2026 12, utcMillis 2026 13, [], []⟩ ∧
    utcMillis 2026 12 = monthStart 2027 1 ∧
    utcMillis 2026 13 = monthStart 2027 2 := by
  refine ⟨?_, ?_, ?_⟩
  · have h := c10_month_rollover.1 [] "2026-13" 2026 13 (by decide) (by decide)
      (by decide) (by decide) (by decide) (by decide) (by decide) (by decide)
    have e : (13 : Int) - 1 = 12 := by decide
    rw [e] at h
    rw [h]
    rfl
  · have h := (c10_month_rollover.2 2026).1
    rw [h]
    decide
  · have h := (c10_month_rollover.2 2026).2.1
    rw [h]
    decide

theorem sum_map_div_four (g : List FeedbackRecord) (f : FeedbackRecord → ℚ) :
    (g.map fun r => f r / 4).sum = (g.map f).sum / 4 := by
  induction g with
  | nil => simp
  | cons a t ih => simp [ih, add_div]

theorem sum_map_add_four (g : List FeedbackRecord) :
    (g.map fun r =>
      (r.reactivity : ℚ) + r.deadlines + r.deliverables + r.professionalism).sum =
      (g.map fun r => (r.reactivity : ℚ)).sum + (g.map fun r => (r.deadlines : ℚ)).sum +
        (g.map fun r => (r.deliverables : ℚ)).sum +
        (g.map fun r => (r.professionalism : ℚ)).sum := by
  induction g with
  | nil => simp
  | cons a t ih =>
    simp only [List.map_cons, List.sum_cons, ih]
    ring

theorem mkStats_avg_total (p : String) (g : List FeedbackRecord) :
    (mkStats p g).avg_total =
      ((mkStats p g).avg_reactivity + (mkStats p g).avg_deadlines +
        (mkStats p g).avg_deliverables + (mkStats p g).avg_professionalism) / 4 := by
  simp only [mkStats]
  rw [sum_map_div_four g fun r =>
    (r.reactivity : ℚ) + r.deadlines + r.deliverables + r.professionalism]
  rw [sum_map_add_four]
  ring

theorem statsHandler_ok (store : List FeedbackRecord) (month : Option String)
    (out : StatsOk) (h : statsHandler store month = StatsResult.ok out) :
    ∃ m s e, month = some m ∧ monthRange m = some (s, e) ∧
      out = ⟨m, s, e, statsRows store s e, actionPlan (statsRows store s e)⟩ := by
  cases month with
  | none => simp [statsHandler] at h
  | some m =>
    by_cases hm : m = ""
    · subst hm
      simp [statsHandler] at h
    · cases hmr : monthRange m with
      | none => simp [statsHandler, hm, hmr] at h
      | some pr =>
        obtain ⟨s, e⟩ := pr
        refine ⟨m, s, e, rfl, hmr, ?_⟩
        simp [statsHandler, hm, hmr] at h
        exact h.symm

/-- C2: in every stats response, the overall average of each project row
equals the arithmetic mean of its four per-dimension averages — by
linearity of the sum this is exactly what the query computes with
`AVG((reactivity+deadlines+deliverables+professionalism)/4.0)`. -/
theorem c2_avg_total (store : List FeedbackRecord) (month : Option String)
    (out : StatsOk) (r : ProjectStats)
    (h : statsHandler store month = StatsResult.ok out) (hr : r ∈ out.projects) :
    r.avg_total =
      (r.avg_reactivity + r.avg_deadlines + r.avg_deliverables +
        r.avg_professionalism) / 4 := by
  obtain ⟨m, s, e, -, -, rfl⟩ := statsHandler_ok store month out h
  simp only [statsRows] at hr
  rw [List.mem_insertionSort] at hr
  obtain ⟨p, hp, rfl⟩ := List.mem_map.mp hr
  exact mkStats_avg_total p _

theorem exRecord_fields :
    exRecord =
      ⟨jan2026, "a@x.com", "Acme", "Website", 2, none, 5, none, 5, none, 5,
        none, none⟩ := by
  decide

theorem exStats_eval : statsRows [exRecord] jan2026 feb2026 = [exRow] := by
  have hfil : List.filter
      (fun r => decide (jan2026 ≤ r.created_at ∧ r.created_at < feb2026))
      [exRecord] = [exRecord] := by decide
  have hocc : firstOccurrences (List.map (fun r => r.project) [exRecord]) =
      ["Website"] := by decide
  have hfil2 : List.filter (fun r => r.project == "Website") [exRecord] =
      [exRecord] := by decide
  have hmk : mkStats "Website" [exRecord] = exRow := by
    rw [exRecord_fields]
    simp only [mkStats, exRow, List.map_cons, List.map_nil, List.sum_cons,
      List.sum_nil, List.length_cons, List.length_nil]
    norm_num
  simp only [statsRows, hfil, hocc, List.map_cons, List.map_nil, hfil2, hmk]
  simp [List.insertionSort]
  have hp : exRecord.project = "Website" := by decide
  rw [hp]
  exact hmk

theorem exHandler_eval :
    statsHandler [exRecord] (some "2026-01") =
      StatsResult.ok
        ⟨"2026-01", jan2026, feb2026, [exRow], [⟨"Website", [reactivityRec]⟩]⟩ := by
  have hmr : monthRange "2026-01" = some (jan2026, feb2026) := by decide
  have h1 : exRow.avg_reactivity < 4 := by norm_num [exRow]
  have h2 : ¬exRow.avg_deadlines < 4 := by norm_num [exRow]
  have h3 : ¬exRow.avg_deliverables < 4 := by norm_num [exRow]
  have h4 : ¬exRow.avg_professionalism < 4 := by norm_num [exRow]
  have hap : actionPlan [exRow] = [⟨"Website", [reactivityRec]⟩] := by
    have hp : exRow.project = "Website" := by decide
    simp [actionPlan, recommendations, h1, h2, h3, h4, hp]
  simp [statsHandler, hmr, exStats_eval, hap]

/-- C7: the spec example — submit ratings 2,5,5,5 for client Acme on
project Website during January 2026; the stats for 2026-01 hold exactly
one project `Website` with one response, `avg_reactivity = 2`,
`avg_total = 17/4 = 4.25`, and an action plan with exactly one entry for
`Website` holding exactly the reactivity recommendation. -/
theorem c7_example :
    submitFeedback jan2026 [] exBody = (SubmitResult.ok, [exRecord]) ∧
    statsHandler [exRecord] (some "2026-01") =
      StatsResult.ok
        ⟨"2026-01", jan2026, feb2026, [exRow], [⟨"Website", [reactivityRec]⟩]⟩ :=
  ⟨by decide, exHandler_eval⟩

/-- C6: the projects list of every stats response is sorted in ascending
order of the overall average, worst-performing project first. -/
theorem c6_sorted (store : List FeedbackRecord) (month : Option String)
    (out : StatsOk) (h : statsHandler store month = StatsResult.ok out) :
    out.projects.Pairwise fun a b => a.avg_total ≤ b.avg_total := by
  obtain ⟨m, s, e, -, -, rfl⟩ := statsHandler_ok store month out h
  exact List.sorted_insertionSort statsLE _

/-- Witness for C6 at the concrete example response. -/
theorem c6_sorted_witness :
    (StatsOk.mk "2026-01" jan2026 feb2026 [exRow]
        [⟨"Website", [reactivityRec]⟩]).projects.Pairwise
      fun a b => a.avg_total ≤ b.avg_total :=
  c6_sorted [exRecord] (some "2026-01") _ exHandler_eval

/-- Witness for C2 at the concrete example row. -/
theorem c2_avg_total_witness :
    exRow.avg_total =
      (exRow.avg_reactivity + exRow.avg_deadlines + exRow.avg_deliverables +
        exRow.avg_professionalism) / 4 :=
  c2_avg_total [exRecord] (some "2026-01") _ exRow exHandler_eval
    (List.mem_singleton.mpr rfl)

theorem count_reactivityRec (r : ProjectStats) :
    (recommendations r).count reactivityRec =
      if r.avg_reactivity < 4 then 1 else 0 := by
  by_cases h1 : r.avg_reactivity < 4 <;> by_cases h2 : r.avg_deadlines < 4 <;>
    by_cases h3 : r.avg_deliverables < 4 <;>
    by_cases h4 : r.avg_professionalism < 4 <;>
    simp only [recommendations, h1, h2, h3, h4, if_true, if_false] <;> decide

theorem count_deadlinesRec (r : ProjectStats) :
    (recommendations r).count deadlinesRec =
      if r.avg_deadlines < 4 then 1 else 0 := by
  by_cases h1 : r.avg_reactivity < 4 <;> by_cases h2 : r.avg_deadlines < 4 <;>
    by_cases h3 : r.avg_deliverables < 4 <;>
    by_cases h4 : r.avg_professionalism < 4 <;>
    simp only [recommendations, h1, h2, h3, h4, if_true, if_false] <;> decide

theorem count_deliverablesRec (r : ProjectStats) :
    (recommendations r).count deliverablesRec =
      if r.avg_deliverables < 4 then 1 else 0 := by
  by_cases h1 : r.avg_reactivity < 4 <;> by_cases h2 : r.avg_deadlines < 4 <;>
    by_cases h3 : r.avg_deliverables < 4 <;>
    by_cases h4 : r.avg_professionalism < 4 <;>
    simp only [recommendations, h1, h2, h3, h4, if_true, if_false] <;> decide

theorem count_professionalismRec (r : ProjectStats) :
    (recommendations r).count professionalismRec =
      if r.avg_professionalism < 4 then 1 else 0 := by
  by_cases h1 : r.avg_reactivity < 4 <;> by_cases h2 : r.avg_deadlines < 4 <;>
    by_cases h3 : r.avg_deliverables < 4 <;>
    by_cases h4 : r.avg_professionalism < 4 <;>
    simp only [recommendations, h1, h2, h3, h4, if_true, if_false] <;> decide

theorem firstOccAux_nodup (l : List String) :
    ∀ seen, (firstOccAux seen l).Nodup ∧ ∀ x ∈ firstOccAux seen l, x ∉ seen := by
  induction l with
  | nil => intro seen; simp [firstOccAux]
  | cons a t ih =>
    intro seen
    by_cases h : a ∈ seen
    · simpa [firstOccAux, h] using ih seen
    · obtain ⟨hnd, hnin⟩ := ih (a :: seen)
      have hnotmem : a ∉ firstOccAux (a :: seen) t :=
        fun hx => (hnin a hx) (List.mem_cons_self a seen)
      constructor
      · simpa [firstOccAux, h, List.nodup_cons] using ⟨hnotmem, hnd⟩
      · intro x hx
        simp only [firstOccAux, h, if_false] at hx
        rcases List.mem_cons.mp hx with rfl | hx2
        · exact h
        · exact fun hxs => hnin x hx2 (List.mem_cons_of_mem a hxs)

theorem firstOccurrences_nodup (l : List String) : (firstOccurrences l).Nodup :=
  (firstOccAux_nodup l []).1

theorem statsRows_proj_nodup (store : List FeedbackRecord) (s e : Int) :
    (List.map (fun r => r.project) (statsRows store s e)).Nodup := by
  simp only [statsRows]
  rw [List.Perm.nodup_iff
    ((List.perm_insertionSort statsLE _).map fun r : ProjectStats => r.project)]
  rw [List.map_map]
  have hcomp : ((fun r : ProjectStats => r.project) ∘ fun p =>
      mkStats p (List.filter (fun r => r.project == p)
        (List.filter (fun r => decide (s ≤ r.created_at ∧ r.created_at < e))
          store))) = id := by
    funext p
    simp [mkStats]
  rw [hcomp]
  simpa using firstOccurrences_nodup _

/-- C5: the action plan applies four independent strict-less-than rules at
threshold 4: each dimension average strictly below 4 contributes exactly
one copy of the fixed recommendation string of that dimension, and a
project row whose four averages are all at least 4 appears nowhere in the
action plan. -/
theorem c5_threshold_rules (store : List FeedbackRecord) (s e : Int)
    (r : ProjectStats) (hr : r ∈ statsRows store s e) :
    ((recommendations r).count reactivityRec =
      if r.avg_reactivity < 4 then 1 else 0) ∧
    ((recommendations r).count deadlinesRec =
      if r.avg_deadlines < 4 then 1 else 0) ∧
    ((recommendations r).count deliverablesRec =
      if r.avg_deliverables < 4 then 1 else 0) ∧
    ((recommendations r).count professionalismRec =
      if r.avg_professionalism < 4 then 1 else 0) ∧
    (4 ≤ r.avg_reactivity → 4 ≤ r.avg_deadlines → 4 ≤ r.avg_deliverables →
      4 ≤ r.avg_professionalism →
      ∀ a ∈ actionPlan (statsRows store s e), a.project ≠ r.project) := by
  refine ⟨count_reactivityRec r, count_deadlinesRec r, count_deliverablesRec r,
    count_professionalismRec r, ?_⟩
  intro k1 k2 k3 k4 a ha
  obtain ⟨r2, hr2, hsome⟩ := List.mem_filterMap.mp ha
  by_cases hemp : (recommendations r2).isEmpty = true
  · rw [if_pos hemp] at hsome
    cases hsome
  · rw [if_neg hemp] at hsome
    have ha2 : a = ⟨r2.project, recommendations r2⟩ := by
      injection hsome with h
      exact h.symm
    intro hproj
    have hpp : r2.project = r.project := by
      rw [ha2] at hproj
      exact hproj
    have heq : r2 = r :=
      List.inj_on_of_nodup_map (statsRows_proj_nodup store s e) hr2 hr hpp
    subst heq
    have hempty : recommendations r2 = [] := by
      simp [recommendations, not_lt.mpr k1, not_lt.mpr k2, not_lt.mpr k3,
        not_lt.mpr k4]
    rw [hempty] at hemp
    exact hemp rfl

/-- Witness for C5 at the concrete example row: the reactivity rule fires
exactly once. -/
theorem c5_threshold_rules_witness :
    (recommendations exRow).count reactivityRec =
      if exRow.avg_reactivity < 4 then 1 else 0 :=
  (c5_threshold_rules [exRecord] jan2026 feb2026 exRow
    (by rw [exStats_eval]; exact List.mem_singleton.mpr rfl)).1

theorem recommendations_isEmpty_eq (r : ProjectStats) :
    (recommendations r).isEmpty = !anyLowDim r := by
  by_cases h1 : r.avg_reactivity < 4 <;> by_cases h2 : r.avg_deadlines < 4 <;>
    by_cases h3 : r.avg_deliverables < 4 <;>
    by_cases h4 : r.avg_professionalism < 4 <;>
    simp [recommendations, anyLowDim, h1, h2, h3, h4]

theorem actionPlan_filter (rows : List ProjectStats) :
    actionPlan rows =
      List.map (fun r => ⟨r.project, recommendations r⟩)
        (List.filter anyLowDim rows) := by
  induction rows with
  | nil => rfl
  | cons a t ih =>
    simp only [actionPlan] at ih ⊢
    rw [List.filterMap_cons, List.filter_cons]
    by_cases h : anyLowDim a = true
    · have he : (recommendations a).isEmpty = false := by
        rw [recommendations_isEmpty_eq, h]
        rfl
      simp only [he, h]
      simp only [Bool.false_eq_true, if_false, if_true, List.map_cons]
      rw [show (List.filterMap (fun r =>
        if (recommendations r).isEmpty = true then none
        else some (ActionEntry.mk r.project (recommendations r))) t) =
          List.map (fun r => ⟨r.project, recommendations r⟩)
            (List.filter anyLowDim t) from ih]
    · have h2 : anyLowDim a = false := by
        revert h
        cases anyLowDim a <;> simp
      have he : (recommendations a).isEmpty = true := by
        rw [recommendations_isEmpty_eq, h2]
        rfl
      simp only [he, h2]
      simp only [Bool.false_eq_true, if_false, if_true]
      exact ih

/-- C9: the action plan of every stats response lists exactly the rows of
the projects list having some dimension average strictly below 4, in the
same order as the (ascending) projects list. -/
theorem c9_action_plan (store : List FeedbackRecord) (month : Option String)
    (out : StatsOk) (h : statsHandler store month = StatsResult.ok out) :
    out.action_plan =
      List.map (fun r => ⟨r.project, recommendations r⟩)
        (List.filter anyLowDim out.projects) := by
  obtain ⟨m, s, e, -, -, rfl⟩ := statsHandler_ok store month out h
  exact actionPlan_filter _

/-- Witness for C9 at the concrete example response. -/
theorem c9_action_plan_witness :
    (StatsOk.mk "2026-01" jan2026 feb2026 [exRow]
        [⟨"Website", [reactivityRec]⟩]).action_plan =
      List.map (fun r => ⟨r.project, recommendations r⟩)
        (List.filter anyLowDim
          (StatsOk.mk "2026-01" jan2026 feb2026 [exRow]
            [⟨"Website", [reactivityRec]⟩]).projects) :=
  c9_action_plan [exRecord] (some "2026-01") _ exHandler_eval
